import Mathlib

/-!
Shallow embedding of the CFB-Data scraper (scripts/01-cfdscraper.py) and the
batch cleanup pass (scripts/02-clean.py), together with proofs about the
clock converter, the timeout tracker, the home/away roster resolver, the
play-record builder and the play-id cleanup.

Python-level conventions used throughout the embedding:
  a value that may be Python `None` is an `Option`;
  a Python runtime exception is the `Except.error` side of an `Except`, with
  `PyErr` naming the exception class raised;
  Python's substring test `sub in s` is `pyIn sub s`;
  Python's `str.upper()` is `pyUpper` (ASCII letters, as for the
  team-location strings this code compares).
-/

/-- Kinds of Python runtime exception the embedded code can raise. -/
inductive PyErr where
  | typeError
  | valueError
deriving DecidableEq

instance {α : Type} [DecidableEq α] : DecidableEq (Except PyErr α) := fun a b =>
  match a, b with
  | .ok x, .ok y => if h : x = y then .isTrue (by rw [h]) else .isFalse (by simp [h])
  | .error e, .error f => if h : e = f then .isTrue (by rw [h]) else .isFalse (by simp [h])
  | .ok _, .error _ => .isFalse (by simp)
  | .error _, .ok _ => .isFalse (by simp)

/-- Python `str.split(sep)` on a character list: always returns at least one
piece, pieces between occurrences of `sep`. -/
def pySplit (sep : Char) : List Char → List (List Char)
  | [] => [[]]
  | c :: cs =>
    let r := pySplit sep cs
    if c = sep then [] :: r
    else
      match r with
      | [] => [[c]]
      | p :: ps => (c :: p) :: ps

def digitVal (c : Char) : Option Nat :=
  if '0' ≤ c ∧ c ≤ '9' then some (c.toNat - '0'.toNat) else none

def parseNatAux : List Char → Nat → Option Nat
  | [], acc => some acc
  | c :: cs, acc =>
    match digitVal c with
    | none => none
    | some d => parseNatAux cs (acc * 10 + d)

def parseNatChars (l : List Char) : Option Nat :=
  match l with
  | [] => none
  | _ => parseNatAux l 0

/-- Python `int(s)` on a plain decimal numeral (optionally `-`-signed);
`none` models the `ValueError` raised on anything unparseable. -/
def pyIntChars (l : List Char) : Option Int :=
  match l with
  | '-' :: rest => (parseNatChars rest).map (fun n => -(n : Int))
  | rest => (parseNatChars rest).map (fun n => (n : Int))

def containsSub (sub : List Char) : List Char → Bool
  | [] => sub.isEmpty
  | c :: t => sub.isPrefixOf (c :: t) || containsSub sub t

/-- Python's substring test `sub in s`. -/
def pyIn (sub s : String) : Bool := containsSub sub.data s.data

/-- Python `str.upper()` (ASCII letters). -/
def pyUpper (s : String) : String := String.mk (s.data.map Char.toUpper)

/-- Case-insensitive containment (both sides lower-cased); this is the
reading of "matches the location string case-insensitively" used to test
the spec's claim about the timeout decrement. -/
def ciContains (sub s : String) : Bool :=
  containsSub (sub.data.map Char.toLower) (s.data.map Char.toLower)

/-- Embeds `convert_clock_to_seconds(clock, quarter)` (01-cfdscraper.py
lines 113-130).  `clock is None` returns `None`; a clock string that does
not split on `:` into exactly two `int()`-parseable pieces raises
`ValueError`; comparing a `None` quarter with `4` raises `TypeError`. -/
def convert_clock_to_seconds (clock : Option String) (quarter : Option Int) :
    Except PyErr (Option Int) :=
  match clock with
  | none => Except.ok none
  | some c =>
    match (pySplit ':' c.data).map pyIntChars with
    | [some minutes, some seconds] =>
      match quarter with
      | none => Except.error PyErr.typeError
      | some q =>
        let quarter_seconds := minutes * 60 + seconds
        let total_seconds := (if q ≤ 4 then 4 - q else 0) * 15 * 60
        Except.ok (some (quarter_seconds + total_seconds))
    | _ => Except.error PyErr.valueError

/-- The mutable `timeout_state` dict: `{'home_timeouts': .., 'away_timeouts': ..}`. -/
structure TimeoutState where
  home_timeouts : Int
  away_timeouts : Int
deriving DecidableEq

/-- The fields of a play row that `timeout_decrementor` reads. -/
structure TRow where
  play_type : Option String
  description : Option String
  game_seconds_remaining : Option Int
  half : String
deriving DecidableEq

/-- Lines 145-149 of `timeout_decrementor`: the Timeout-play decrement.
`location in description` with a `None` location raises `TypeError`. -/
def dec_phase (location : Option String) (row : TRow) (df : TimeoutState) :
    Except PyErr TimeoutState :=
  if row.play_type = some "Timeout" then
    match row.description with
    | none => Except.ok df
    | some d =>
      match location with
      | none => Except.error PyErr.typeError
      | some l =>
        Except.ok
          (if pyIn l d || pyIn (pyUpper l) d then
            { df with home_timeouts := df.home_timeouts - 1 }
          else
            { df with away_timeouts := df.away_timeouts - 1 })
  else Except.ok df

/-- Lines 150-152: the half-boundary reset to `(3, 3)`. -/
def half_reset (row : TRow) (df : TimeoutState) : TimeoutState :=
  if row.game_seconds_remaining = some 1800 then ⟨3, 3⟩ else df

/-- Lines 154-161: the overtime reset to `(1, 1)` followed by the
re-applied decrement.  The source condition on line 158 is
`location in desc or location.upper() in desc and desc is not None`
(Python parses it as `A or (B and C)`), so with a `None` description or
`None` location the first membership test raises `TypeError`. -/
def ot_phase (location : Option String) (row : TRow) (df : TimeoutState) :
    Except PyErr TimeoutState :=
  if row.game_seconds_remaining = some 0 ∧ pyIn "OT" row.half = true then
    let df2 : TimeoutState := ⟨1, 1⟩
    if row.play_type = some "Timeout" then
      match location, row.description with
      | some l, some d =>
        Except.ok
          (if pyIn l d || pyIn (pyUpper l) d then
            { df2 with home_timeouts := df2.home_timeouts - 1 }
          else
            { df2 with away_timeouts := df2.away_timeouts - 1 })
      | _, _ => Except.error PyErr.typeError
    else Except.ok df2
  else Except.ok df

/-- Embeds `timeout_decrementor(row, df, location)` (lines 132-166): the
decrement phase, then the half-boundary reset, then the overtime phase;
the emitted pair is the post-transition state. -/
def timeout_decrementor (location : Option String) (row : TRow)
    (df : TimeoutState) : Except PyErr TimeoutState :=
  match dec_phase location row df with
  | Except.error e => Except.error e
  | Except.ok d1 => ot_phase location row (half_reset row d1)

/-- The per-game sequential application of `timeout_decrementor` by
`game_df.apply(..., axis=1)` from the initial state (line 269-270):
threads the shared `timeout_state` dict through the rows in play order and
collects the emitted `(home_timeouts, away_timeouts)` pairs; an exception
aborts the whole column assignment. -/
def trackerFold (location : Option String) (df : TimeoutState) :
    List TRow → Except PyErr (List TimeoutState)
  | [] => Except.ok []
  | r :: rs =>
    match timeout_decrementor location r df with
    | Except.error e => Except.error e
    | Except.ok df2 =>
      match trackerFold location df2 rs with
      | Except.error e => Except.error e
      | Except.ok rest => Except.ok (df2 :: rest)

/-- A competitor's `team` object: the fields `get_home_away` reads.  The
`logos` entries stand for the `href` values of the logo records. -/
structure Team where
  abbreviation : String
  id : String
  color : Option String
  logos : Option (List String)
  location : String
deriving DecidableEq

/-- One entry of `header.competitions[0].competitors`. -/
structure Competitor where
  homeAway : Option String
  team : Option Team
  rank : Option Int
deriving DecidableEq

/-- The twelve values `get_home_away` returns, all defaulted to `None` by
the `with_default_values` decorator. -/
structure HomeAwayInfo where
  home_team : Option String := none
  hid : Option String := none
  away_team : Option String := none
  aid : Option String := none
  h_color : Option String := none
  a_color : Option String := none
  h_rank : Option Int := none
  a_rank : Option Int := none
  h_logo : Option String := none
  a_logo : Option String := none
  h_location : Option String := none
  a_location : Option String := none
deriving DecidableEq

/-- The `homeAway == 'home'` branch of `get_home_away` (lines 92-98).  The
returned flag records whether an exception was raised mid-branch (a `None`
team makes the very first subscript raise, a missing or empty `logos` list
raises after abbreviation/id/color/rank are already assigned); the caught
exception leaves the earlier assignments in place. -/
def assign_home (st : HomeAwayInfo) (c : Competitor) : HomeAwayInfo × Bool :=
  match c.team with
  | none => (st, true)
  | some t =>
    let st1 := { st with
      home_team := some t.abbreviation
      hid := some t.id
      h_color := t.color
      h_rank := c.rank }
    match t.logos with
    | none => (st1, true)
    | some [] => (st1, true)
    | some (l :: _) =>
      ({ st1 with h_logo := some l, h_location := some t.location }, false)

/-- The `else` (away) branch of `get_home_away` (lines 99-105). -/
def assign_away (st : HomeAwayInfo) (c : Competitor) : HomeAwayInfo × Bool :=
  match c.team with
  | none => (st, true)
  | some t =>
    let st1 := { st with
      away_team := some t.abbreviation
      aid := some t.id
      a_color := t.color
      a_rank := c.rank }
    match t.logos with
    | none => (st1, true)
    | some [] => (st1, true)
    | some (l :: _) =>
      ({ st1 with a_logo := some l, a_location := some t.location }, false)

/-- One iteration of the `for i in range(2)` loop body. -/
def competitorStep (st : HomeAwayInfo) (c : Competitor) : HomeAwayInfo × Bool :=
  if c.homeAway = some "home" then assign_home st c else assign_away st c

/-- Embeds `get_home_away(_json)` (lines 61-110).  The `try` wraps the
whole loop and every exception (including the `IndexError` of a too-short
list) is caught and printed, so the function always returns whatever has
been assigned so far. -/
def get_home_away (js : List Competitor) : HomeAwayInfo :=
  match js with
  | [] => {}
  | [c0] => (competitorStep {} c0).fst
  | c0 :: c1 :: _ =>
    let r0 := competitorStep {} c0
    if r0.snd then r0.fst else (competitorStep r0.fst c1).fst

/-- The `start` object of a play.  `team` is doubly optional: the outer
layer is the presence of the `team` object (`play['start'].get('team')`,
whose absence makes `.get('id')` raise `AttributeError`), the inner layer
the presence of its `id`. -/
structure PlayStart where
  down : Option Int
  distance : Option Int
  yardsToEndzone : Option Int
  team : Option (Option String)
  possessionText : Option String
deriving DecidableEq

/-- One raw play record.  `text` and `type_text` are doubly optional: the
outer layer is key presence (`'text' in play`, `play.get('type')`), the
inner layer a JSON `null` value. -/
structure Play where
  id : Int
  homeScore : Int
  awayScore : Int
  text : Option (Option String)
  type_text : Option (Option String)
  period_number : Option Int
  clock_displayValue : Option String
  start : PlayStart
  statYardage : Int
deriving DecidableEq

structure Drive where
  plays : List Play
deriving DecidableEq

/-- The per-play values appended to the builder's column lists
(lines 220-232). -/
structure PlayCols where
  play_id : Int
  home_score : Int
  away_score : Int
  desc : Option String
  the_play_type : Option String
  quarter : Option Int
  clock : Option String
  down : Option Int
  ydstogo : Option Int
  yardline_100 : Option Int
  posteam : Option String
  ball_location : Option String
  yards_gained : Int
deriving DecidableEq

/-- One iteration of the extraction loop.  `none` models the
`AttributeError` raised by `play['start'].get('team').get('id')` when the
`team` object is missing. -/
def extractPlay (p : Play) : Option PlayCols :=
  match p.start.team with
  | none => none
  | some tid =>
    some {
      play_id := p.id
      home_score := p.homeScore
      away_score := p.awayScore
      desc := match p.text with | none => some "N/A" | some v => v
      the_play_type := match p.type_text with | none => some "N/A" | some v => v
      quarter := p.period_number
      clock := p.clock_displayValue
      down := p.start.down
      ydstogo := p.start.distance
      yardline_100 := p.start.yardsToEndzone
      posteam := tid
      ball_location := p.start.possessionText
      yards_gained := p.statYardage }

/-- The whole extraction loop; an `AttributeError` on any play aborts it
(and the surrounding `except AttributeError` then returns the still-empty
dataframe). -/
def extractPlays : List Play → Option (List PlayCols)
  | [] => some []
  | p :: ps =>
    match extractPlay p with
    | none => none
    | some e => (extractPlays ps).map (fun r => e :: r)

/-- The header fields the builder reads (lines 234-239). -/
structure Header where
  id : Int
  season_year : Int
  season_type : Int
  neutralSite : Bool
  conferenceCompetition : Bool
  week : Int
  competitors : List Competitor
deriving DecidableEq

/-- The `drives` object; `previous` is its `previous` list
(`json.get('drives').get('previous')`). -/
structure DrivesObj where
  previous : Option (List Drive)
deriving DecidableEq

/-- A game summary payload: `drives = none` models a payload with no
`drives` key at all (then `.get('previous')` raises `AttributeError`,
which line 274 catches). -/
structure Payload where
  header : Header
  drives : Option DrivesObj
deriving DecidableEq

/-- One output row (the `PlayDF` schema, minus the unused score columns). -/
structure Row where
  game_id : Int
  play_id : Int
  home_id : Option String
  home_team : Option String
  home_rank : Option Int
  away_id : Option String
  away_team : Option String
  away_rank : Option Int
  season_type : String
  week : Int
  posteam : Option String
  posteam_type : String
  defteam : Option String
  yardline_100 : Option Int
  year : Int
  quarter : Option Int
  clock : Option String
  game_seconds_remaining : Option Int
  half : String
  down : Option Int
  ydstogo : Option Int
  the_play_type : Option String
  yds_gained : Int
  description : Option String
  home_timeouts : Int
  away_timeouts : Int
  posteam_tos : Int
  defteam_tos : Int
deriving DecidableEq

/-- Line 262: `'Half1' if x in [1, 2] else 'Half2' if x in [3, 4] else
f'OT{x}'`; a missing period number prints as Python `None`. -/
def half_label (q : Option Int) : String :=
  match q with
  | some 1 => "Half1"
  | some 2 => "Half1"
  | some 3 => "Half2"
  | some 4 => "Half2"
  | some n => "OT" ++ toString n
  | none => "OT" ++ "None"

/-- Line 263: `down if down != 0 else np.nan`. -/
def norm_down (d : Option Int) : Option Int :=
  match d with
  | some 0 => none
  | x => x

/-- Assembles one output row from the header, the resolved home/away info,
one extracted play, its elapsed-seconds value and the emitted timeout
state (lines 243-272). -/
def buildRow (h : Header) (ha : HomeAwayInfo) (e : PlayCols) (gsr : Option Int)
    (ts : TimeoutState) : Row :=
  let dt := if e.posteam = ha.hid then ha.aid else ha.hid
  { game_id := h.id
    play_id := e.play_id
    home_id := ha.hid
    home_team := ha.home_team
    home_rank := ha.h_rank
    away_id := ha.aid
    away_team := ha.away_team
    away_rank := ha.a_rank
    season_type := if h.season_type = 2 then "regular" else "bowl"
    week := h.week
    posteam := e.posteam
    posteam_type :=
      if e.posteam = ha.hid then "home"
      else if e.posteam = ha.aid then "away" else "neutral"
    defteam := dt
    yardline_100 := e.yardline_100
    year := h.season_year
    quarter := e.quarter
    clock := e.clock
    game_seconds_remaining := gsr
    half := half_label e.quarter
    down := norm_down e.down
    ydstogo := e.ydstogo
    the_play_type := e.the_play_type
    yds_gained := e.yards_gained
    description := e.desc
    home_timeouts := ts.home_timeouts
    away_timeouts := ts.away_timeouts
    posteam_tos :=
      if e.posteam = ha.hid then ts.home_timeouts else ts.away_timeouts
    defteam_tos :=
      if dt = ha.hid then ts.home_timeouts else ts.away_timeouts }

/-- The fields of an extracted play that `timeout_decrementor` reads, as
present in the dataframe row handed to it. -/
def toTRow (e : PlayCols) (gsr : Option Int) : TRow :=
  { play_type := e.the_play_type
    description := e.desc
    game_seconds_remaining := gsr
    half := half_label e.quarter }

/-- Line 260: the `game_seconds_remaining` column, computed for every row
before anything later runs; the first conversion failure aborts the game. -/
def clockColumn : List PlayCols → Except PyErr (List (Option Int))
  | [] => Except.ok []
  | e :: es =>
    match convert_clock_to_seconds e.clock e.quarter with
    | Except.error er => Except.error er
    | Except.ok g =>
      match clockColumn es with
      | Except.error er => Except.error er
      | Except.ok gs => Except.ok (g :: gs)

def trackRows : List PlayCols → List (Option Int) → List TRow
  | e :: es, g :: gs => toTRow e g :: trackRows es gs
  | _, _ => []

def assembleRows (h : Header) (ha : HomeAwayInfo) :
    List PlayCols → List (Option Int) → List TimeoutState → List Row
  | e :: es, g :: gs, t :: ts => buildRow h ha e g t :: assembleRows h ha es gs ts
  | _, _, _ => []

/-- Embeds `get_play_by_play` (lines 170-277), minus the HTTP fetch: the
roster is resolved, then the drives/plays are walked in payload order; a
missing `drives` key or an extraction `AttributeError` yields the empty
row set (the `except AttributeError` on line 274), while a `drives`
object whose `previous` is `None` makes the `for` raise `TypeError`,
and clock-conversion or tracker exceptions also escape. -/
def get_play_by_play (p : Payload) : Except PyErr (List Row) :=
  let ha := get_home_away p.header.competitors
  match p.drives with
  | none => Except.ok []
  | some w =>
    match w.previous with
    | none => Except.error PyErr.typeError
    | some drives =>
      match extractPlays (drives.flatMap Drive.plays) with
      | none => Except.ok []
      | some exts =>
        match clockColumn exts with
        | Except.error er => Except.error er
        | Except.ok gsrs =>
          match trackerFold ha.h_location ⟨3, 3⟩ (trackRows exts gsrs) with
          | Except.error er => Except.error er
          | Except.ok tss => Except.ok (assembleRows p.header ha exts gsrs tss)

/-- Embeds `positive(column)` from 02-clean.py (line 10-11). -/
def positive (column : Int) : Int := |column|

/-- One row of a per-season CSV as 02-clean.py sees it: the `play_id`
column plus the untouched remaining columns. -/
structure CleanRow where
  play_id : Int
  rest : List String
deriving DecidableEq

/-- Line 19: `curr['play_id'] = curr['play_id'].apply(positive)`. -/
def clean_file (rows : List CleanRow) : List CleanRow :=
  rows.map fun r => { r with play_id := positive r.play_id }

/-- Lines 17-24: every per-season file is rewritten cleaned, and the
cleaned files are concatenated into the combined CSV. -/
def combined_data (files : List (List CleanRow)) : List CleanRow :=
  (files.map clean_file).flatten

/-- A home-tagged competitor for concrete runs. -/
def homeComp : Competitor :=
  { homeAway := some "home"
    team := some
      { abbreviation := "HOM"
        id := "10"
        color := some "aa0000"
        logos := some ["hlogo"]
        location := "Hometown" }
    rank := none }

/-- An away-tagged competitor for concrete runs. -/
def awayComp : Competitor :=
  { homeAway := some "away"
    team := some
      { abbreviation := "AWY"
        id := "20"
        color := none
        logos := some ["alogo"]
        location := "Awaytown" }
    rank := some 5 }

/-- A plain rushing play for concrete runs. -/
def samplePlay : Play :=
  { id := 7
    homeScore := 0
    awayScore := 0
    text := some (some "Run for 5 yds")
    type_text := some (some "Rush")
    period_number := some 1
    clock_displayValue := some "15:00"
    start :=
      { down := some 1
        distance := some 10
        yardsToEndzone := some 75
        team := some (some "10")
        possessionText := some "HOM 25" }
    statYardage := 5 }

/-- A one-drive, one-play game payload with a well-tagged roster. -/
def samplePayload : Payload :=
  { header :=
      { id := 401
        season_year := 2023
        season_type := 2
        neutralSite := false
        conferenceCompetition := false
        week := 1
        competitors := [homeComp, awayComp] }
    drives := some { previous := some [{ plays := [samplePlay] }] } }

/-- A competitor carrying no `homeAway` tag at all. -/
def untaggedA : Competitor :=
  { homeAway := none
    team := some
      { abbreviation := "AAA"
        id := "1"
        color := some "111111"
        logos := some ["alogo1"]
        location := "Atown" }
    rank := none }

/-- A second competitor carrying no `homeAway` tag. -/
def untaggedB : Competitor :=
  { homeAway := none
    team := some
      { abbreviation := "BBB"
        id := "2"
        color := some "222222"
        logos := some ["blogo1"]
        location := "Btown" }
    rank := some 9 }

/-- The sample payload with both competitors untagged: the malformed-roster
scenario of the error-handling claim. -/
def untaggedPayload : Payload :=
  { samplePayload with
    header := { samplePayload.header with competitors := [untaggedA, untaggedB] } }

/-- The single row built from `samplePayload`. -/
def sampleRow : Row :=
  { game_id := 401
    play_id := 7
    home_id := some "10"
    home_team := some "HOM"
    home_rank := none
    away_id := some "20"
    away_team := some "AWY"
    away_rank := some 5
    season_type := "regular"
    week := 1
    posteam := some "10"
    posteam_type := "home"
    defteam := some "20"
    yardline_100 := some 75
    year := 2023
    quarter := some 1
    clock := some "15:00"
    game_seconds_remaining := some 3600
    half := "Half1"
    down := some 1
    ydstogo := some 10
    the_play_type := some "Rush"
    yds_gained := 5
    description := some "Run for 5 yds"
    home_timeouts := 3
    away_timeouts := 3
    posteam_tos := 3
    defteam_tos := 3 }

/-- The single row built from `untaggedPayload`: its home-side identifiers
are all absent. -/
def untaggedRow : Row :=
  { sampleRow with
    home_id := none
    home_team := none
    away_id := some "2"
    away_team := some "BBB"
    away_rank := some 9
    posteam_type := "neutral"
    defteam := none
    defteam_tos := 3 }

/-- With a present (`some`) location string the decrement phase never
raises. -/
theorem dec_phase_some_ok (l : String) (row : TRow) (df : TimeoutState) :
    ∃ d1, dec_phase (some l) row df = Except.ok d1 := by
  unfold dec_phase
  split
  · match row.description with
    | none => exact ⟨df, rfl⟩
    | some d => exact ⟨_, rfl⟩
  · exact ⟨df, rfl⟩

/-- C5: for every clock string splitting on `:` into two parseable
integers and every quarter number, `convert_clock_to_seconds` returns
`minutes*60 + seconds` plus `15*60*(4 - quarter)` when the quarter is at
most 4 and no base offset otherwise; and an absent clock yields an absent
result. -/
theorem clock_converter_formula :
    (∀ (s : String) (m sec q : Int),
        (pySplit ':' s.data).map pyIntChars = [some m, some sec] →
        convert_clock_to_seconds (some s) (some q) =
          Except.ok (some (m * 60 + sec + (if q ≤ 4 then 15 * 60 * (4 - q) else 0)))) ∧
    (∀ q, convert_clock_to_seconds none q = Except.ok none) := by
  constructor
  · intro s m sec q h
    unfold convert_clock_to_seconds
    dsimp only
    rw [h]
    dsimp only
    by_cases hq : q ≤ 4
    · simp only [if_pos hq]
      congr 2
      ring
    · simp only [if_neg hq]
      norm_num
  · intro q
    rfl

/-- Witness for C5: the three example conversions from the spec, obtained
from the general formula, plus the absent-clock case. -/
theorem clock_converter_formula_witness :
    convert_clock_to_seconds (some "15:00") (some 1) = Except.ok (some 3600) ∧
    convert_clock_to_seconds (some "00:00") (some 4) = Except.ok (some 0) ∧
    convert_clock_to_seconds (some "10:00") (some 5) = Except.ok (some 600) ∧
    convert_clock_to_seconds none (some 1) = Except.ok none := by
  refine ⟨?_, ?_, ?_, clock_converter_formula.2 (some 1)⟩
  · exact (clock_converter_formula.1 "15:00" 15 0 1 (by decide)).trans (by decide)
  · exact (clock_converter_formula.1 "00:00" 0 0 4 (by decide)).trans (by decide)
  · exact (clock_converter_formula.1 "10:00" 10 0 5 (by decide)).trans (by decide)

/-- C10: a present clock with an absent quarter never yields a value: the
parse either fails (`ValueError`) or the `quarter <= 4` comparison against
`None` raises `TypeError`. -/
theorem clock_converter_fails_on_none_quarter (s : String) :
    ∃ e, convert_clock_to_seconds (some s) none = Except.error e := by
  unfold convert_clock_to_seconds
  dsimp only
  split
  · exact ⟨PyErr.typeError, rfl⟩
  · exact ⟨PyErr.valueError, rfl⟩

/-- Witness for C10 at a well-formed clock string. -/
theorem clock_converter_fails_on_none_quarter_witness :
    ∃ e, convert_clock_to_seconds (some "15:00") none = Except.error e :=
  clock_converter_fails_on_none_quarter "15:00"

/-- C4: a row whose elapsed seconds equal 1800 always emits `(3, 3)`,
whatever the prior state and even when the row is itself a Timeout play:
the half-boundary reset runs after the decrement, and the overtime branch
cannot fire on the same row. -/
theorem halftime_reset_overrides (l : String) (row : TRow) (df : TimeoutState)
    (h : row.game_seconds_remaining = some 1800) :
    timeout_decrementor (some l) row df = Except.ok ⟨3, 3⟩ := by
  obtain ⟨d1, hd⟩ := dec_phase_some_ok l row df
  unfold timeout_decrementor
  rw [hd]
  unfold half_reset
  rw [h]
  unfold ot_phase
  rw [h]
  simp

/-- Witness for C4: a Timeout play at the 1800-second boundary, from a
depleted state, still emits `(3, 3)`. -/
theorem halftime_reset_overrides_witness :
    timeout_decrementor (some "Hometown")
      { play_type := some "Timeout"
        description := some "Timeout by Hometown"
        game_seconds_remaining := some 1800
        half := "Half2" } ⟨1, 0⟩ = Except.ok ⟨3, 3⟩ :=
  halftime_reset_overrides "Hometown" _ ⟨1, 0⟩ rfl

/-- C3 fails as stated: the description `"aB ball"` contains the home
location `"Ab"` case-insensitively, yet the tracker decrements the away
counter (the code only tests the verbatim and fully upper-cased spellings),
so the matching side's counter is not the one decremented. -/
theorem timeout_decrement_not_case_insensitive :
    ciContains "Ab" "aB ball" = true ∧
    timeout_decrementor (some "Ab")
      { play_type := some "Timeout"
        description := some "aB ball"
        game_seconds_remaining := some 100
        half := "Half1" } ⟨3, 3⟩ = Except.ok ⟨3, 2⟩ := by
  constructor
  · decide
  · decide

/-- C3 (amended): for a Timeout row with a present description, away from
both reset boundaries, the home counter is decremented exactly when the
description contains the location verbatim or fully upper-cased, and the
away counter is decremented in every other case. -/
theorem timeout_decrement_exact_or_upper (l d : String) (row : TRow)
    (df : TimeoutState)
    (hp : row.play_type = some "Timeout") (hd : row.description = some d)
    (h1800 : row.game_seconds_remaining ≠ some 1800)
    (hot : ¬(row.game_seconds_remaining = some 0 ∧ pyIn "OT" row.half = true)) :
    timeout_decrementor (some l) row df =
      Except.ok (if pyIn l d || pyIn (pyUpper l) d
        then { df with home_timeouts := df.home_timeouts - 1 }
        else { df with away_timeouts := df.away_timeouts - 1 }) := by
  have hdec : dec_phase (some l) row df =
      Except.ok (if pyIn l d || pyIn (pyUpper l) d
        then { df with home_timeouts := df.home_timeouts - 1 }
        else { df with away_timeouts := df.away_timeouts - 1 }) := by
    unfold dec_phase
    rw [if_pos hp, hd]
  unfold timeout_decrementor
  rw [hdec]
  dsimp only
  unfold half_reset
  rw [if_neg h1800]
  unfold ot_phase
  rw [if_neg hot]

/-- Witness for the amended C3: an upper-cased location in the description
decrements the home counter. -/
theorem timeout_decrement_exact_or_upper_witness :
    timeout_decrementor (some "Hometown")
      { play_type := some "Timeout"
        description := some "Timeout by HOMETOWN"
        game_seconds_remaining := some 900
        half := "Half2" } ⟨3, 3⟩ = Except.ok ⟨2, 3⟩ :=
  (timeout_decrement_exact_or_upper "Hometown" "Timeout by HOMETOWN"
    { play_type := some "Timeout"
      description := some "Timeout by HOMETOWN"
      game_seconds_remaining := some 900
      half := "Half2" } ⟨3, 3⟩ rfl rfl (by decide) (by decide)).trans (by decide)

/-- With the overtime guard satisfied, `ot_phase` resets to `(1, 1)` and
then re-runs the decrement test, raising `TypeError` on a Timeout play
whose description is absent. -/
theorem ot_phase_active (l : String) (row : TRow) (df : TimeoutState)
    (h0 : row.game_seconds_remaining = some 0)
    (hot : pyIn "OT" row.half = true) :
    ot_phase (some l) row df =
      if row.play_type = some "Timeout" then
        match row.description with
        | some d =>
          Except.ok (if pyIn l d || pyIn (pyUpper l) d then ⟨0, 1⟩ else ⟨1, 0⟩)
        | none => Except.error PyErr.typeError
      else Except.ok ⟨1, 1⟩ := by
  unfold ot_phase
  rw [if_pos ⟨h0, hot⟩]
  split
  · cases hdesc : row.description with
    | some d =>
      dsimp only
      norm_num
    | none => rfl
  · rfl

/-- On an overtime-start row the whole transition is the `ot_phase`
outcome, whatever the decrement phase did before it. -/
theorem timeout_decrementor_ot (l : String) (row : TRow) (df : TimeoutState)
    (h0 : row.game_seconds_remaining = some 0)
    (hot : pyIn "OT" row.half = true) :
    timeout_decrementor (some l) row df =
      if row.play_type = some "Timeout" then
        match row.description with
        | some d =>
          Except.ok (if pyIn l d || pyIn (pyUpper l) d then ⟨0, 1⟩ else ⟨1, 0⟩)
        | none => Except.error PyErr.typeError
      else Except.ok ⟨1, 1⟩ := by
  obtain ⟨d1, hd⟩ := dec_phase_some_ok l row df
  unfold timeout_decrementor
  rw [hd]
  dsimp only
  exact ot_phase_active l row (half_reset row d1) h0 hot

/-- C6 fails as stated: on an overtime-start row that is a Timeout play
with an absent description, the tracker raises `TypeError` (the
`is not None` guard on line 158 is parsed as part of the second disjunct,
so `location in None` is evaluated first) instead of emitting the reset
counters. -/
theorem ot_redecrement_none_description_raises :
    timeout_decrementor (some "Hometown")
      { play_type := some "Timeout"
        description := none
        game_seconds_remaining := some 0
        half := "OT5" } ⟨3, 3⟩ = Except.error PyErr.typeError := by
  decide

/-- C6 (amended): on a row with elapsed seconds 0 and an `OT` half label,
both counters are reset to 1; if the row is simultaneously a Timeout play
with a present description the decrement test is re-applied to the reset
values, emitting `(0, 1)` or `(1, 0)`; with an absent description the
tracker raises `TypeError` instead of emitting. -/
theorem ot_reset_and_redecrement (l : String) (row : TRow) (df : TimeoutState)
    (h0 : row.game_seconds_remaining = some 0)
    (hot : pyIn "OT" row.half = true) :
    (row.play_type ≠ some "Timeout" →
      timeout_decrementor (some l) row df = Except.ok ⟨1, 1⟩) ∧
    (∀ d, row.play_type = some "Timeout" → row.description = some d →
      timeout_decrementor (some l) row df =
        Except.ok (if pyIn l d || pyIn (pyUpper l) d then ⟨0, 1⟩ else ⟨1, 0⟩)) ∧
    (row.play_type = some "Timeout" → row.description = none →
      timeout_decrementor (some l) row df = Except.error PyErr.typeError) := by
  have h := timeout_decrementor_ot l row df h0 hot
  refine ⟨?_, ?_, ?_⟩
  · intro hpt
    rw [h, if_neg hpt]
  · intro d hpt hdesc
    rw [h, if_pos hpt, hdesc]
  · intro hpt hdesc
    rw [h, if_pos hpt, hdesc]

/-- Witness for the amended C6: an overtime-start Timeout play naming the
away side leaves the home counter at 1 and the away counter at 0, from an
arbitrary prior state. -/
theorem ot_reset_and_redecrement_witness :
    timeout_decrementor (some "Hometown")
      { play_type := some "Timeout"
        description := some "Timeout by Awaytown"
        game_seconds_remaining := some 0
        half := "OT5" } ⟨3, 2⟩ = Except.ok ⟨1, 0⟩ :=
  ((ot_reset_and_redecrement "Hometown"
      { play_type := some "Timeout"
        description := some "Timeout by Awaytown"
        game_seconds_remaining := some 0
        half := "OT5" } ⟨3, 2⟩ rfl (by decide)).2.1
    "Timeout by Awaytown" rfl rfl).trans (by decide)

/-- The decrement phase never increases either counter. -/
theorem dec_phase_le (loc : Option String) (row : TRow) (df d : TimeoutState)
    (h : dec_phase loc row df = Except.ok d) :
    d.home_timeouts ≤ df.home_timeouts ∧ d.away_timeouts ≤ df.away_timeouts := by
  unfold dec_phase at h
  split at h
  · split at h
    · injection h with h
      subst h
      exact ⟨le_refl _, le_refl _⟩
    · split at h
      · exact absurd h (by simp)
      · injection h with h
        subst h
        split <;> constructor <;> simp
  · injection h with h
    subst h
    exact ⟨le_refl _, le_refl _⟩

/-- The overtime phase either leaves the state alone or caps both
counters at 1. -/
theorem ot_phase_le (loc : Option String) (row : TRow) (df d : TimeoutState)
    (h : ot_phase loc row df = Except.ok d) :
    d = df ∨ (d.home_timeouts ≤ 1 ∧ d.away_timeouts ≤ 1) := by
  unfold ot_phase at h
  split at h
  · split at h
    · split at h
      · right
        injection h with h
        subst h
        split <;> exact ⟨by norm_num, by norm_num⟩
      · exact absurd h (by simp)
    · right
      injection h with h
      subst h
      exact ⟨by norm_num, by norm_num⟩
  · left
    injection h with h
    exact h.symm

/-- One tracker transition preserves the upper bound 3 on both counters. -/
theorem timeout_decrementor_le3 (loc : Option String) (row : TRow)
    (df d : TimeoutState) (h : timeout_decrementor loc row df = Except.ok d)
    (h3 : df.home_timeouts ≤ 3 ∧ df.away_timeouts ≤ 3) :
    d.home_timeouts ≤ 3 ∧ d.away_timeouts ≤ 3 := by
  unfold timeout_decrementor at h
  cases hdp : dec_phase loc row df with
  | error e =>
    rw [hdp] at h
    exact absurd h (by simp)
  | ok d1 =>
    rw [hdp] at h
    dsimp only at h
    have hle := dec_phase_le loc row df d1 hdp
    have h1 : (half_reset row d1).home_timeouts ≤ 3 ∧
        (half_reset row d1).away_timeouts ≤ 3 := by
      unfold half_reset
      split
      · exact ⟨by norm_num, by norm_num⟩
      · exact ⟨le_trans hle.1 h3.1, le_trans hle.2 h3.2⟩
    rcases ot_phase_le loc row (half_reset row d1) d h with heq | hb
    · rw [heq]
      exact h1
    · exact ⟨le_trans hb.1 (by norm_num), le_trans hb.2 (by norm_num)⟩

/-- Away from the 1800-second boundary, one tracker transition preserves
the upper bound 1 on both counters. -/
theorem timeout_decrementor_le1 (loc : Option String) (row : TRow)
    (df d : TimeoutState) (h : timeout_decrementor loc row df = Except.ok d)
    (h1 : df.home_timeouts ≤ 1 ∧ df.away_timeouts ≤ 1)
    (h1800 : row.game_seconds_remaining ≠ some 1800) :
    d.home_timeouts ≤ 1 ∧ d.away_timeouts ≤ 1 := by
  unfold timeout_decrementor at h
  cases hdp : dec_phase loc row df with
  | error e =>
    rw [hdp] at h
    exact absurd h (by simp)
  | ok d1 =>
    rw [hdp] at h
    dsimp only at h
    have hle := dec_phase_le loc row df d1 hdp
    have hhr : half_reset row d1 = d1 := by
      unfold half_reset
      rw [if_neg h1800]
    rw [hhr] at h
    rcases ot_phase_le loc row d1 d h with heq | hb
    · rw [heq]
      exact ⟨le_trans hle.1 h1.1, le_trans hle.2 h1.2⟩
    · exact hb

/-- With the overtime guard satisfied, a successful overtime phase caps
both counters at 1. -/
theorem ot_phase_active_le (loc : Option String) (row : TRow)
    (df d : TimeoutState) (h0 : row.game_seconds_remaining = some 0)
    (hot : pyIn "OT" row.half = true)
    (h : ot_phase loc row df = Except.ok d) :
    d.home_timeouts ≤ 1 ∧ d.away_timeouts ≤ 1 := by
  unfold ot_phase at h
  rw [if_pos ⟨h0, hot⟩] at h
  split at h
  · split at h
    · injection h with h
      subst h
      split <;> exact ⟨by norm_num, by norm_num⟩
    · exact absurd h (by simp)
  · injection h with h
    subst h
    exact ⟨by norm_num, by norm_num⟩

/-- A successful transition on an overtime-start row caps both counters
at 1. -/
theorem timeout_decrementor_ot_le1 (loc : Option String) (row : TRow)
    (df d : TimeoutState) (h : timeout_decrementor loc row df = Except.ok d)
    (h0 : row.game_seconds_remaining = some 0)
    (hot : pyIn "OT" row.half = true) :
    d.home_timeouts ≤ 1 ∧ d.away_timeouts ≤ 1 := by
  unfold timeout_decrementor at h
  cases hdp : dec_phase loc row df with
  | error e =>
    rw [hdp] at h
    exact absurd h (by simp)
  | ok d1 =>
    rw [hdp] at h
    dsimp only at h
    exact ot_phase_active_le loc row (half_reset row d1) d h0 hot h

/-- Every state emitted by a successful tracker run from a state bounded
by 3 stays bounded by 3. -/
theorem trackerFold_le3 (loc : Option String) (rows : List TRow) :
    ∀ (df : TimeoutState) (states : List TimeoutState),
      df.home_timeouts ≤ 3 → df.away_timeouts ≤ 3 →
      trackerFold loc df rows = Except.ok states →
      ∀ st ∈ states, st.home_timeouts ≤ 3 ∧ st.away_timeouts ≤ 3 := by
  induction rows with
  | nil =>
    intro df states _ _ h st hst
    unfold trackerFold at h
    injection h with h
    subst h
    simp at hst
  | cons r rs ih =>
    intro df states h3h h3a h st hst
    unfold trackerFold at h
    cases hstep : timeout_decrementor loc r df with
    | error e =>
      rw [hstep] at h
      exact absurd h (by simp)
    | ok df2 =>
      rw [hstep] at h
      dsimp only at h
      cases hrest : trackerFold loc df2 rs with
      | error e =>
        rw [hrest] at h
        exact absurd h (by simp)
      | ok rest =>
        rw [hrest] at h
        dsimp only at h
        injection h with h
        subst h
        have hdf2 := timeout_decrementor_le3 loc r df df2 hstep ⟨h3h, h3a⟩
        rcases List.mem_cons.mp hst with heq | hmem
        · rw [heq]
          exact hdf2
        · exact ih df2 rest hdf2.1 hdf2.2 hrest st hmem

/-- Every state emitted by a successful tracker run, from a state bounded
by 1, over rows never hitting the 1800-second boundary, stays bounded
by 1. -/
theorem trackerFold_le1 (loc : Option String) (rows : List TRow) :
    ∀ (df : TimeoutState) (states : List TimeoutState),
      df.home_timeouts ≤ 1 → df.away_timeouts ≤ 1 →
      (∀ r ∈ rows, r.game_seconds_remaining ≠ some 1800) →
      trackerFold loc df rows = Except.ok states →
      ∀ st ∈ states, st.home_timeouts ≤ 1 ∧ st.away_timeouts ≤ 1 := by
  induction rows with
  | nil =>
    intro df states _ _ _ h st hst
    unfold trackerFold at h
    injection h with h
    subst h
    simp at hst
  | cons r rs ih =>
    intro df states h1h h1a hall h st hst
    unfold trackerFold at h
    cases hstep : timeout_decrementor loc r df with
    | error e =>
      rw [hstep] at h
      exact absurd h (by simp)
    | ok df2 =>
      rw [hstep] at h
      dsimp only at h
      cases hrest : trackerFold loc df2 rs with
      | error e =>
        rw [hrest] at h
        exact absurd h (by simp)
      | ok rest =>
        rw [hrest] at h
        dsimp only at h
        injection h with h
        subst h
        have hr1800 : r.game_seconds_remaining ≠ some 1800 :=
          hall r (List.mem_cons_self r rs)
        have hdf2 := timeout_decrementor_le1 loc r df df2 hstep ⟨h1h, h1a⟩ hr1800
        rcases List.mem_cons.mp hst with heq | hmem
        · rw [heq]
          exact hdf2
        · exact ih df2 rest hdf2.1 hdf2.2
            (fun r2 hr2 => hall r2 (List.mem_cons_of_mem r hr2)) hrest st hmem

/-- C1 (amended): from the initial state `(3, 3)` every emitted pair is
bounded above by 3, and from the state emitted by an overtime-start row
every pair stays bounded above by 1 until a row hitting the 1800-second
boundary; the counters are however not guaranteed non-negative. -/
theorem timeout_tracker_bounds :
    (∀ (l : String) (rows : List TRow) (states : List TimeoutState),
        trackerFold (some l) ⟨3, 3⟩ rows = Except.ok states →
        ∀ st ∈ states, st.home_timeouts ≤ 3 ∧ st.away_timeouts ≤ 3) ∧
    (∀ (l : String) (row : TRow) (df st0 : TimeoutState),
        row.game_seconds_remaining = some 0 → pyIn "OT" row.half = true →
        timeout_decrementor (some l) row df = Except.ok st0 →
        (st0.home_timeouts ≤ 1 ∧ st0.away_timeouts ≤ 1) ∧
        ∀ (rows2 : List TRow) (states2 : List TimeoutState),
          (∀ r ∈ rows2, r.game_seconds_remaining ≠ some 1800) →
          trackerFold (some l) st0 rows2 = Except.ok states2 →
          ∀ st ∈ states2, st.home_timeouts ≤ 1 ∧ st.away_timeouts ≤ 1) := by
  constructor
  · intro l rows states h st hst
    exact trackerFold_le3 (some l) rows ⟨3, 3⟩ states (by norm_num) (by norm_num) h st hst
  · intro l row df st0 h0 hot hstep
    have hb := timeout_decrementor_ot_le1 (some l) row df st0 hstep h0 hot
    refine ⟨hb, ?_⟩
    intro rows2 states2 hall h2 st hst
    exact trackerFold_le1 (some l) rows2 st0 states2 hb.1 hb.2 hall h2 st hst

/-- Four consecutive Timeout plays whose descriptions never mention the
home location, used to refute the non-negativity part of C1. -/
def fourAwayTimeouts : List TRow :=
  List.replicate 4
    { play_type := some "Timeout"
      description := some "zz"
      game_seconds_remaining := some 100
      half := "Half1" }

/-- C1 fails as stated: after four Timeout plays all charged to the away
side, the emitted away counter is `-1` — the tracker never floors the
counters at zero, so non-negativity does not hold. -/
theorem timeout_nonnegativity_fails :
    ¬ (∀ states, trackerFold (some "Ab") ⟨3, 3⟩ fourAwayTimeouts = Except.ok states →
        ∀ st ∈ states, 0 ≤ st.home_timeouts ∧ 0 ≤ st.away_timeouts) := by
  intro h
  have hm := h [⟨3, 2⟩, ⟨3, 1⟩, ⟨3, 0⟩, ⟨3, -1⟩] (by decide) ⟨3, -1⟩ (by decide)
  exact absurd hm.2 (by decide)

/-- Witness for the amended C1: a one-row run stays bounded by 3, and an
overtime-start row emits a state bounded by 1. -/
theorem timeout_tracker_bounds_witness :
    ((3 : Int) ≤ 3 ∧ (2 : Int) ≤ 3) ∧ ((1 : Int) ≤ 1 ∧ (1 : Int) ≤ 1) :=
  ⟨timeout_tracker_bounds.1 "Ab"
      [{ play_type := some "Timeout"
         description := some "zz"
         game_seconds_remaining := some 100
         half := "Half1" }] [⟨3, 2⟩] (by decide) ⟨3, 2⟩ (by decide),
   (timeout_tracker_bounds.2 "Ab"
      { play_type := none
        description := none
        game_seconds_remaining := some 0
        half := "OT5" } ⟨3, 3⟩ ⟨1, 1⟩ rfl (by decide) (by decide)).1⟩

/-- The away branch never assigns the home-side fields. -/
theorem assign_away_fst_home (st : HomeAwayInfo) (c : Competitor) :
    ((assign_away st c).fst).home_team = st.home_team ∧
    ((assign_away st c).fst).hid = st.hid := by
  unfold assign_away
  rcases hc : c.team with _ | t
  · exact ⟨rfl, rfl⟩
  · dsimp only
    rcases hl : t.logos with _ | ls
    · exact ⟨rfl, rfl⟩
    · cases ls with
      | nil => exact ⟨rfl, rfl⟩
      | cons l ls2 => exact ⟨rfl, rfl⟩

/-- When neither of the two competitors carries `homeAway == "home"`,
`get_home_away` returns with the home-side fields never assigned. -/
theorem get_home_away_untagged (c0 c1 : Competitor)
    (h0 : c0.homeAway ≠ some "home") (h1 : c1.homeAway ≠ some "home") :
    (get_home_away [c0, c1]).home_team = none ∧
    (get_home_away [c0, c1]).hid = none := by
  unfold get_home_away
  dsimp only
  unfold competitorStep
  rw [if_neg h0, if_neg h1]
  have ha0 := assign_away_fst_home {} c0
  have ha1 := assign_away_fst_home (assign_away {} c0).fst c1
  split
  · exact ⟨ha0.1, ha0.2⟩
  · exact ⟨ha1.1.trans ha0.1, ha1.2.trans ha0.2⟩

/-- Every row in a successful builder output is `buildRow` applied to the
game header, the resolved roster, and some extracted play with its
elapsed-seconds value and emitted timeout state. -/
theorem assembleRows_mem (h : Header) (ha : HomeAwayInfo) :
    ∀ (es : List PlayCols) (gs : List (Option Int)) (ts : List TimeoutState)
      (row : Row), row ∈ assembleRows h ha es gs ts →
      ∃ e g t, row = buildRow h ha e g t := by
  intro es
  induction es with
  | nil =>
    intro gs ts row hm
    have he : assembleRows h ha [] gs ts = [] := by
      unfold assembleRows
      rfl
    rw [he] at hm
    simp at hm
  | cons e es ih =>
    intro gs ts row hm
    cases gs with
    | nil =>
      have he : assembleRows h ha (e :: es) [] ts = [] := by
        unfold assembleRows
        rfl
      rw [he] at hm
      simp at hm
    | cons g gs =>
      cases ts with
      | nil =>
        have he : assembleRows h ha (e :: es) (g :: gs) [] = [] := by
          unfold assembleRows
          rfl
        rw [he] at hm
        simp at hm
      | cons t ts =>
        rw [show assembleRows h ha (e :: es) (g :: gs) (t :: ts) =
            buildRow h ha e g t :: assembleRows h ha es gs ts from rfl] at hm
        rcases List.mem_cons.mp hm with heq | hmem
        · exact ⟨e, g, t, heq⟩
        · exact ih gs ts row hmem

/-- Every row a successful `get_play_by_play` run emits is a `buildRow`
over that game's header and resolved roster. -/
theorem get_play_by_play_rows_shape (p : Payload) (rows : List Row)
    (h : get_play_by_play p = Except.ok rows) (row : Row) (hm : row ∈ rows) :
    ∃ e g t, row = buildRow p.header (get_home_away p.header.competitors) e g t := by
  unfold get_play_by_play at h
  dsimp only at h
  split at h
  · injection h with h
    subst h
    simp at hm
  · split at h
    · exact absurd h (by simp)
    · split at h
      · injection h with h
        subst h
        simp at hm
      · split at h
        · exact absurd h (by simp)
        · split at h
          · exact absurd h (by simp)
          · injection h with h
            subst h
            exact assembleRows_mem p.header (get_home_away p.header.competitors)
              _ _ _ row hm

/-- C2 fails as stated: with both competitors missing the `homeAway` tag,
the resolver returns normally — the away side resolved from the second
entry, the home side left absent — and the builder then emits a row for
the game instead of skipping it. -/
theorem resolver_untagged_no_failure :
    (get_home_away [untaggedA, untaggedB]).hid = none ∧
    (get_home_away [untaggedA, untaggedB]).aid = some "2" ∧
    get_play_by_play untaggedPayload = Except.ok [untaggedRow] := by
  refine ⟨by decide, by decide, by decide⟩

/-- C2 (amended): when no competitor carries `homeAway == "home"` the
resolver does not fail: it returns a result whose home-side fields are
absent, and every row the builder then emits carries an absent home id
(partial rows are emitted rather than the game being skipped). -/
theorem resolver_untagged_returns :
    (∀ c0 c1 : Competitor,
        c0.homeAway ≠ some "home" → c1.homeAway ≠ some "home" →
        (get_home_away [c0, c1]).home_team = none ∧
        (get_home_away [c0, c1]).hid = none) ∧
    (∀ (p : Payload) (c0 c1 : Competitor) (rows : List Row),
        p.header.competitors = [c0, c1] →
        c0.homeAway ≠ some "home" → c1.homeAway ≠ some "home" →
        get_play_by_play p = Except.ok rows →
        ∀ row ∈ rows, row.home_id = none) := by
  constructor
  · exact get_home_away_untagged
  · intro p c0 c1 rows hcomp h0 h1 hok row hm
    obtain ⟨e, g, t, rfl⟩ := get_play_by_play_rows_shape p rows hok row hm
    show (get_home_away p.header.competitors).hid = none
    rw [hcomp]
    exact (get_home_away_untagged c0 c1 h0 h1).2

/-- Witness for the amended C2 at the concrete untagged payload. -/
theorem resolver_untagged_returns_witness :
    ((get_home_away [untaggedA, untaggedB]).home_team = none ∧
     (get_home_away [untaggedA, untaggedB]).hid = none) ∧
    untaggedRow.home_id = none :=
  ⟨resolver_untagged_returns.1 untaggedA untaggedB (by decide) (by decide),
   resolver_untagged_returns.2 untaggedPayload untaggedA untaggedB
     [untaggedRow] rfl (by decide) (by decide) (by decide) untaggedRow
     (by decide)⟩

/-- C7: in every emitted row the defending team id is the away id when the
possessing team id equals the home id, and the home id in every other
case, neutral possession included. -/
theorem defteam_assignment (p : Payload) (rows : List Row)
    (h : get_play_by_play p = Except.ok rows) (row : Row) (hm : row ∈ rows) :
    row.defteam =
      if row.posteam = row.home_id then row.away_id else row.home_id := by
  obtain ⟨e, g, t, rfl⟩ := get_play_by_play_rows_shape p rows h row hm
  rfl

/-- Witness for C7 at the concrete sample game. -/
theorem defteam_assignment_witness :
    sampleRow.defteam =
      if sampleRow.posteam = sampleRow.home_id then sampleRow.away_id
      else sampleRow.home_id :=
  defteam_assignment samplePayload [sampleRow] (by decide) sampleRow (by decide)

/-- The sample payload with the `drives` key removed entirely. -/
def noDrivesPayload : Payload := { samplePayload with drives := none }

/-- C8: a payload with no drives structure at all yields the empty row
sequence (the `AttributeError` from `.get('previous')` on `None` is caught
and the empty dataframe returned), not an error. -/
theorem missing_drives_empty (p : Payload) (h : p.drives = none) :
    get_play_by_play p = Except.ok [] := by
  unfold get_play_by_play
  rw [h]

/-- Witness for C8 at the concrete drive-less payload. -/
theorem missing_drives_empty_witness :
    get_play_by_play noDrivesPayload = Except.ok [] :=
  missing_drives_empty noDrivesPayload rfl

/-- C9: the cleanup pass maps every row's `play_id` to its absolute value,
so every `play_id` in the rewritten per-season files and in the combined
file is non-negative. -/
theorem cleanup_play_id_abs (files : List (List CleanRow)) :
    ((files.map clean_file).map (fun f => f.map CleanRow.play_id) =
      files.map (fun f => f.map (fun r => |r.play_id|))) ∧
    (∀ f ∈ files.map clean_file, ∀ r ∈ f, 0 ≤ r.play_id) ∧
    (∀ r ∈ combined_data files, 0 ≤ r.play_id) := by
  have habs : ∀ f ∈ files.map clean_file, ∀ r ∈ f, 0 ≤ r.play_id := by
    intro f hf r hr
    obtain ⟨f0, _, rfl⟩ := List.mem_map.mp hf
    obtain ⟨r0, _, rfl⟩ := List.mem_map.mp hr
    exact abs_nonneg r0.play_id
  refine ⟨?_, habs, ?_⟩
  · simp only [List.map_map]
    apply List.map_congr_left
    intro f _
    simp [clean_file, positive, List.map_map, Function.comp]
  · intro r hr
    obtain ⟨f, hf, hrf⟩ := List.mem_flatten.mp hr
    exact habs f hf r hrf

/-- Witness for C9: a file with the negative play id `-5` is rewritten to
`5`, which is non-negative. -/
theorem cleanup_play_id_abs_witness :
    (⟨5, []⟩ : CleanRow) ∈ combined_data [[⟨-5, []⟩]] ∧ (0 : Int) ≤ 5 :=
  ⟨by decide, (cleanup_play_id_abs [[⟨-5, []⟩]]).2.2 ⟨5, []⟩ (by decide)⟩
